import Mathlib

/-!
Shallow embedding of the input-remapping and worker-loop logic of the
libruffle repository (src/input.rs, src/lib.rs).

Rust HashMaps are modelled as association lists where `insertRT` replaces an
existing binding for the same key (as HashMap::insert does) and `lookupD`
returns the binding's value.  Rust f64 coordinate arithmetic is modelled with
exact rationals.  The polled joypad bitmask (a jint) is modelled as the
natural number giving its 32-bit two's complement pattern, for which the
`>> bit & 1` extraction agrees with `Nat.testBit`.
-/

namespace Libruffle

/-- Embeds `KeyAction` from src/input.rs. -/
inductive KeyAction where
  | Down
  | Up
deriving DecidableEq, Repr

/-- Embeds `impl From<i32> for KeyAction` (src/input.rs lines 69-77): 0 maps to
`Down`, every other value to `Up`. -/
def KeyAction.fromInt (action : Int) : KeyAction :=
  if action = 0 then KeyAction.Down else KeyAction.Up

/-- Embeds `impl From<bool> for KeyAction` (src/input.rs lines 79-87). -/
def KeyAction.fromBool (is_down : Bool) : KeyAction :=
  if is_down then KeyAction.Down else KeyAction.Up

/-- Embeds `InputSource` from src/input.rs. -/
inductive InputSource where
  | Keyboard
  | Gamepad
deriving DecidableEq, Repr

/-- Embeds `ruffle_core::events::PhysicalKey`, restricted to the constructors the
repository's descriptor table uses. -/
inductive PhysicalKey where
  | Unknown
  | Home
  | Digit0 | Digit1 | Digit2 | Digit3 | Digit4
  | Digit5 | Digit6 | Digit7 | Digit8 | Digit9
  | ArrowUp | ArrowDown | ArrowLeft | ArrowRight
  | KeyA | KeyB | KeyC | KeyD | KeyE | KeyF | KeyG | KeyH | KeyI
  | KeyJ | KeyK | KeyL | KeyM | KeyN | KeyO | KeyP | KeyQ | KeyR
  | KeyS | KeyT | KeyU | KeyV | KeyW | KeyX | KeyY | KeyZ
  | Comma | Period
  | AltLeft | AltRight | ShiftLeft | ShiftRight
  | Tab | Space | Enter | Delete
  | Minus | Equal | BracketLeft | BracketRight | Backslash
  | Semicolon | Slash
  | PageUp | PageDown | Escape
  | ControlLeft | ControlRight
  | CapsLock | ScrollLock | ContextMenu | PrintScreen | Pause
  | End | Insert
  | F1 | F2 | F3 | F4 | F5 | F6 | F7 | F8 | F9 | F10 | F11 | F12
  | NumLock
  | Numpad0 | Numpad1 | Numpad2 | Numpad3 | Numpad4
  | Numpad5 | Numpad6 | Numpad7 | Numpad8 | Numpad9
  | NumpadDivide | NumpadMultiply | NumpadSubtract | NumpadAdd
  | NumpadComma | NumpadEnter
deriving DecidableEq, Repr

/-- Embeds `ruffle_core::events::NamedKey`, restricted to the constructors used. -/
inductive NamedKey where
  | Home
  | ArrowUp | ArrowDown | ArrowLeft | ArrowRight
  | Alt | Shift | Tab | Enter | Delete
  | PageUp | PageDown | Escape | Control
  | CapsLock | ScrollLock | ContextMenu | PrintScreen | Pause
  | End | Insert | NumLock
  | F1 | F2 | F3 | F4 | F5 | F6 | F7 | F8 | F9 | F10 | F11 | F12
  | Play
deriving DecidableEq, Repr

/-- Embeds `ruffle_core::events::LogicalKey`. -/
inductive LogicalKey where
  | Character (c : Char)
  | Named (k : NamedKey)
  | Unknown
deriving DecidableEq, Repr

/-- Embeds `ruffle_core::events::KeyLocation`. -/
inductive KeyLocation where
  | Standard
  | Left
  | Right
  | Numpad
deriving DecidableEq, Repr

/-- Embeds `ruffle_core::events::KeyDescriptor`. -/
structure KeyDescriptor where
  physical_key : PhysicalKey
  logical_key : LogicalKey
  key_location : KeyLocation
deriving DecidableEq, Repr

/-- Embeds `ndk::event::Keycode`, restricted to the constructors the repository
uses: the 108 entries of `KEYCODE_ARRAY` plus the gamepad button codes used
as route-table keys. -/
inductive Keycode where
  | Home
  | Keycode0 | Keycode1 | Keycode2 | Keycode3 | Keycode4
  | Keycode5 | Keycode6 | Keycode7 | Keycode8 | Keycode9
  | DpadUp | DpadDown | DpadLeft | DpadRight
  | A | B | C | D | E | F | G | H | I | J | K | L | M
  | N | O | P | Q | R | S | T | U | V | W | X | Y | Z
  | Comma | Period
  | AltLeft | AltRight | ShiftLeft | ShiftRight
  | Tab | Space | Enter | Del | Grave
  | Minus | Equals | LeftBracket | RightBracket | Backslash
  | Semicolon | Apostrophe | Slash
  | PageUp | PageDown
  | Escape | ForwardDel | CtrlLeft | CtrlRight
  | CapsLock | ScrollLock | MetaLeft | MetaRight
  | Sysrq | Break | MoveHome | MoveEnd | Insert
  | F1 | F2 | F3 | F4 | F5 | F6 | F7 | F8 | F9 | F10 | F11 | F12
  | NumLock
  | Numpad0 | Numpad1 | Numpad2 | Numpad3 | Numpad4
  | Numpad5 | Numpad6 | Numpad7 | Numpad8 | Numpad9
  | NumpadDivide | NumpadMultiply | NumpadSubtract | NumpadAdd
  | NumpadDot | NumpadComma | NumpadEnter | NumpadEquals
  | MediaPlay | MediaPause
  | ButtonA | ButtonB | ButtonX | ButtonY
  | ButtonSelect | ButtonStart | ButtonL1 | ButtonR1
deriving DecidableEq, Repr

/-- The `impl From<Keycode> for i32` conversion from the ndk crate: each
constructor's Android key-code value (`keycode.into()` in the source). -/
def keycodeToInt : Keycode → Int
  | .Home => 3
  | .Keycode0 => 7
  | .Keycode1 => 8
  | .Keycode2 => 9
  | .Keycode3 => 10
  | .Keycode4 => 11
  | .Keycode5 => 12
  | .Keycode6 => 13
  | .Keycode7 => 14
  | .Keycode8 => 15
  | .Keycode9 => 16
  | .DpadUp => 19
  | .DpadDown => 20
  | .DpadLeft => 21
  | .DpadRight => 22
  | .A => 29
  | .B => 30
  | .C => 31
  | .D => 32
  | .E => 33
  | .F => 34
  | .G => 35
  | .H => 36
  | .I => 37
  | .J => 38
  | .K => 39
  | .L => 40
  | .M => 41
  | .N => 42
  | .O => 43
  | .P => 44
  | .Q => 45
  | .R => 46
  | .S => 47
  | .T => 48
  | .U => 49
  | .V => 50
  | .W => 51
  | .X => 52
  | .Y => 53
  | .Z => 54
  | .Comma => 55
  | .Period => 56
  | .AltLeft => 57
  | .AltRight => 58
  | .ShiftLeft => 59
  | .ShiftRight => 60
  | .Tab => 61
  | .Space => 62
  | .Enter => 66
  | .Del => 67
  | .Grave => 68
  | .Minus => 69
  | .Equals => 70
  | .LeftBracket => 71
  | .RightBracket => 72
  | .Backslash => 73
  | .Semicolon => 74
  | .Apostrophe => 75
  | .Slash => 76
  | .PageUp => 92
  | .PageDown => 93
  | .ButtonA => 96
  | .ButtonB => 97
  | .ButtonX => 99
  | .ButtonY => 100
  | .ButtonL1 => 102
  | .ButtonR1 => 103
  | .ButtonStart => 108
  | .ButtonSelect => 109
  | .Escape => 111
  | .ForwardDel => 112
  | .CtrlLeft => 113
  | .CtrlRight => 114
  | .CapsLock => 115
  | .ScrollLock => 116
  | .MetaLeft => 117
  | .MetaRight => 118
  | .Sysrq => 120
  | .Break => 121
  | .MoveHome => 122
  | .MoveEnd => 123
  | .Insert => 124
  | .MediaPlay => 126
  | .MediaPause => 127
  | .F1 => 131
  | .F2 => 132
  | .F3 => 133
  | .F4 => 134
  | .F5 => 135
  | .F6 => 136
  | .F7 => 137
  | .F8 => 138
  | .F9 => 139
  | .F10 => 140
  | .F11 => 141
  | .F12 => 142
  | .NumLock => 143
  | .Numpad0 => 144
  | .Numpad1 => 145
  | .Numpad2 => 146
  | .Numpad3 => 147
  | .Numpad4 => 148
  | .Numpad5 => 149
  | .Numpad6 => 150
  | .Numpad7 => 151
  | .Numpad8 => 152
  | .Numpad9 => 153
  | .NumpadDivide => 154
  | .NumpadMultiply => 155
  | .NumpadSubtract => 156
  | .NumpadAdd => 157
  | .NumpadDot => 158
  | .NumpadComma => 159
  | .NumpadEnter => 160
  | .NumpadEquals => 161

/-- Embeds `keycode_as_descriptor` (src/input.rs lines 591-1139).  Keycodes without
an explicit arm fall to the wildcard placeholder descriptor whose logical
key is `Unknown`. -/
def keycode_as_descriptor : Keycode → KeyDescriptor
  | .Home => ⟨.Home, .Named .Home, .Standard⟩
  | .Keycode0 => ⟨.Digit0, .Character '0', .Standard⟩
  | .Keycode1 => ⟨.Digit1, .Character '1', .Standard⟩
  | .Keycode2 => ⟨.Digit2, .Character '2', .Standard⟩
  | .Keycode3 => ⟨.Digit3, .Character '3', .Standard⟩
  | .Keycode4 => ⟨.Digit4, .Character '4', .Standard⟩
  | .Keycode5 => ⟨.Digit5, .Character '5', .Standard⟩
  | .Keycode6 => ⟨.Digit6, .Character '6', .Standard⟩
  | .Keycode7 => ⟨.Digit7, .Character '7', .Standard⟩
  | .Keycode8 => ⟨.Digit8, .Character '8', .Standard⟩
  | .Keycode9 => ⟨.Digit9, .Character '9', .Standard⟩
  | .DpadUp => ⟨.ArrowUp, .Named .ArrowUp, .Standard⟩
  | .DpadDown => ⟨.ArrowDown, .Named .ArrowDown, .Standard⟩
  | .DpadLeft => ⟨.ArrowLeft, .Named .ArrowLeft, .Standard⟩
  | .DpadRight => ⟨.ArrowRight, .Named .ArrowRight, .Standard⟩
  | .A => ⟨.KeyA, .Character 'a', .Standard⟩
  | .B => ⟨.KeyB, .Character 'b', .Standard⟩
  | .C => ⟨.KeyC, .Character 'c', .Standard⟩
  | .D => ⟨.KeyD, .Character 'd', .Standard⟩
  | .E => ⟨.KeyE, .Character 'e', .Standard⟩
  | .F => ⟨.KeyF, .Character 'f', .Standard⟩
  | .G => ⟨.KeyG, .Character 'g', .Standard⟩
  | .H => ⟨.KeyH, .Character 'h', .Standard⟩
  | .I => ⟨.KeyI, .Character 'i', .Standard⟩
  | .J => ⟨.KeyJ, .Character 'j', .Standard⟩
  | .K => ⟨.KeyK, .Character 'k', .Standard⟩
  | .L => ⟨.KeyL, .Character 'l', .Standard⟩
  | .M => ⟨.KeyM, .Character 'm', .Standard⟩
  | .N => ⟨.KeyN, .Character 'n', .Standard⟩
  | .O => ⟨.KeyO, .Character 'o', .Standard⟩
  | .P => ⟨.KeyP, .Character 'p', .Standard⟩
  | .Q => ⟨.KeyQ, .Character 'q', .Standard⟩
  | .R => ⟨.KeyR, .Character 'r', .Standard⟩
  | .S => ⟨.KeyS, .Character 's', .Standard⟩
  | .T => ⟨.KeyT, .Character 't', .Standard⟩
  | .U => ⟨.KeyU, .Character 'u', .Standard⟩
  | .V => ⟨.KeyV, .Character 'v', .Standard⟩
  | .W => ⟨.KeyW, .Character 'w', .Standard⟩
  | .X => ⟨.KeyX, .Character 'x', .Standard⟩
  | .Y => ⟨.KeyY, .Character 'y', .Standard⟩
  | .Z => ⟨.KeyZ, .Character 'z', .Standard⟩
  | .Comma => ⟨.Comma, .Character ',', .Standard⟩
  | .Period => ⟨.Period, .Character '.', .Standard⟩
  | .AltLeft => ⟨.AltLeft, .Named .Alt, .Left⟩
  | .AltRight => ⟨.AltRight, .Named .Alt, .Right⟩
  | .ShiftLeft => ⟨.ShiftLeft, .Named .Shift, .Left⟩
  | .ShiftRight => ⟨.ShiftRight, .Named .Shift, .Right⟩
  | .Tab => ⟨.Tab, .Named .Tab, .Standard⟩
  | .Space => ⟨.Space, .Character ' ', .Standard⟩
  | .Enter => ⟨.Enter, .Named .Enter, .Standard⟩
  | .Del => ⟨.Delete, .Named .Delete, .Standard⟩
  | .Grave => ⟨.Unknown, .Character (Char.ofNat 96), .Standard⟩
  | .Minus => ⟨.Minus, .Character '-', .Standard⟩
  | .Equals => ⟨.Equal, .Character '=', .Standard⟩
  | .LeftBracket => ⟨.BracketLeft, .Character '[', .Standard⟩
  | .RightBracket => ⟨.BracketRight, .Character ']', .Standard⟩
  | .Backslash => ⟨.Backslash, .Character (Char.ofNat 92), .Standard⟩
  | .Semicolon => ⟨.Semicolon, .Character ';', .Standard⟩
  | .Apostrophe => ⟨.Unknown, .Character (Char.ofNat 39), .Standard⟩
  | .Slash => ⟨.Slash, .Character '/', .Standard⟩
  | .PageUp => ⟨.PageUp, .Named .PageUp, .Standard⟩
  | .PageDown => ⟨.PageDown, .Named .PageDown, .Standard⟩
  | .Escape => ⟨.Escape, .Named .Escape, .Standard⟩
  | .ForwardDel => ⟨.Delete, .Named .Delete, .Standard⟩
  | .CtrlLeft => ⟨.ControlLeft, .Named .Control, .Left⟩
  | .CtrlRight => ⟨.ControlRight, .Named .Control, .Right⟩
  | .CapsLock => ⟨.CapsLock, .Named .CapsLock, .Standard⟩
  | .ScrollLock => ⟨.ScrollLock, .Named .ScrollLock, .Standard⟩
  | .MetaLeft => ⟨.ContextMenu, .Named .ContextMenu, .Left⟩
  | .MetaRight => ⟨.ContextMenu, .Named .ContextMenu, .Right⟩
  | .Sysrq => ⟨.PrintScreen, .Named .PrintScreen, .Standard⟩
  | .Break => ⟨.Pause, .Named .Pause, .Standard⟩
  | .MoveHome => ⟨.Home, .Named .Home, .Standard⟩
  | .MoveEnd => ⟨.End, .Named .End, .Standard⟩
  | .Insert => ⟨.Insert, .Named .Insert, .Standard⟩
  | .F1 => ⟨.F1, .Named .F1, .Standard⟩
  | .F2 => ⟨.F2, .Named .F2, .Standard⟩
  | .F3 => ⟨.F3, .Named .F3, .Standard⟩
  | .F4 => ⟨.F4, .Named .F4, .Standard⟩
  | .F5 => ⟨.F5, .Named .F5, .Standard⟩
  | .F6 => ⟨.F6, .Named .F6, .Standard⟩
  | .F7 => ⟨.F7, .Named .F7, .Standard⟩
  | .F8 => ⟨.F8, .Named .F8, .Standard⟩
  | .F9 => ⟨.F9, .Named .F9, .Standard⟩
  | .F10 => ⟨.F10, .Named .F10, .Standard⟩
  | .F11 => ⟨.F11, .Named .F11, .Standard⟩
  | .F12 => ⟨.F12, .Named .F12, .Standard⟩
  | .NumLock => ⟨.NumLock, .Named .NumLock, .Numpad⟩
  | .Numpad0 => ⟨.Numpad0, .Character '0', .Numpad⟩
  | .Numpad1 => ⟨.Numpad1, .Character '1', .Numpad⟩
  | .Numpad2 => ⟨.Numpad2, .Character '2', .Numpad⟩
  | .Numpad3 => ⟨.Numpad3, .Character '3', .Numpad⟩
  | .Numpad4 => ⟨.Numpad4, .Character '4', .Numpad⟩
  | .Numpad5 => ⟨.Numpad5, .Character '5', .Numpad⟩
  | .Numpad6 => ⟨.Numpad6, .Character '6', .Numpad⟩
  | .Numpad7 => ⟨.Numpad7, .Character '7', .Numpad⟩
  | .Numpad8 => ⟨.Numpad8, .Character '8', .Numpad⟩
  | .Numpad9 => ⟨.Numpad9, .Character '9', .Numpad⟩
  | .NumpadDivide => ⟨.NumpadDivide, .Character '/', .Numpad⟩
  | .NumpadMultiply => ⟨.NumpadMultiply, .Character '*', .Numpad⟩
  | .NumpadSubtract => ⟨.NumpadSubtract, .Character '-', .Numpad⟩
  | .NumpadAdd => ⟨.NumpadAdd, .Character '+', .Numpad⟩
  | .NumpadDot => ⟨.Unknown, .Character '.', .Numpad⟩
  | .NumpadComma => ⟨.NumpadComma, .Character ',', .Numpad⟩
  | .NumpadEnter => ⟨.NumpadEnter, .Named .Enter, .Numpad⟩
  | .NumpadEquals => ⟨.Unknown, .Character '=', .Numpad⟩
  | .MediaPlay => ⟨.Unknown, .Named .Play, .Standard⟩
  | .MediaPause => ⟨.Unknown, .Named .Pause, .Standard⟩
  | _ => ⟨.Unknown, .Unknown, .Standard⟩

/-- Embeds `KEYCODE_ARRAY` (src/input.rs lines 382-491), in source order. -/
def KEYCODE_ARRAY : List Keycode :=
  [Keycode.Home,
   Keycode.Keycode0, Keycode.Keycode1, Keycode.Keycode2, Keycode.Keycode3, Keycode.Keycode4,
   Keycode.Keycode5, Keycode.Keycode6, Keycode.Keycode7, Keycode.Keycode8, Keycode.Keycode9,
   Keycode.DpadUp, Keycode.DpadDown, Keycode.DpadLeft, Keycode.DpadRight,
   Keycode.A, Keycode.B, Keycode.C, Keycode.D, Keycode.E, Keycode.F, Keycode.G, Keycode.H, Keycode.I, Keycode.J, Keycode.K, Keycode.L, Keycode.M,
   Keycode.N, Keycode.O, Keycode.P, Keycode.Q, Keycode.R, Keycode.S, Keycode.T, Keycode.U, Keycode.V, Keycode.W, Keycode.X, Keycode.Y, Keycode.Z,
   Keycode.Comma, Keycode.Period,
   Keycode.AltLeft, Keycode.AltRight, Keycode.ShiftLeft, Keycode.ShiftRight,
   Keycode.Tab, Keycode.Space, Keycode.Enter, Keycode.Del, Keycode.Grave,
   Keycode.Minus, Keycode.Equals, Keycode.LeftBracket, Keycode.RightBracket, Keycode.Backslash,
   Keycode.Semicolon, Keycode.Apostrophe, Keycode.Slash,
   Keycode.PageUp, Keycode.PageDown,
   Keycode.Escape, Keycode.ForwardDel, Keycode.CtrlLeft, Keycode.CtrlRight,
   Keycode.CapsLock, Keycode.ScrollLock, Keycode.MetaLeft, Keycode.MetaRight,
   Keycode.Sysrq, Keycode.Break, Keycode.MoveHome, Keycode.MoveEnd, Keycode.Insert,
   Keycode.F1, Keycode.F2, Keycode.F3, Keycode.F4, Keycode.F5, Keycode.F6, Keycode.F7, Keycode.F8, Keycode.F9, Keycode.F10, Keycode.F11, Keycode.F12,
   Keycode.NumLock,
   Keycode.Numpad0, Keycode.Numpad1, Keycode.Numpad2, Keycode.Numpad3, Keycode.Numpad4,
   Keycode.Numpad5, Keycode.Numpad6, Keycode.Numpad7, Keycode.Numpad8, Keycode.Numpad9,
   Keycode.NumpadDivide, Keycode.NumpadMultiply, Keycode.NumpadSubtract, Keycode.NumpadAdd,
   Keycode.NumpadDot, Keycode.NumpadComma, Keycode.NumpadEnter, Keycode.NumpadEquals,
   Keycode.MediaPlay, Keycode.MediaPause]

/-- Association-list lookup, modelling `HashMap::get`: the value bound to
`k`, or `none`. -/
def lookupD {α : Type} (l : List (Int × α)) (k : Int) : Option α :=
  (l.find? (fun p => p.1 == k)).map Prod.snd

/-- Association-list insert, modelling `HashMap::insert`: replaces an
existing binding for the key, otherwise appends a new one. -/
def insertRT {α : Type} (l : List (Int × α)) (k : Int) (v : α) : List (Int × α) :=
  if l.any (fun p => p.1 == k) then
    l.map (fun p => if p.1 == k then (k, v) else p)
  else
    l ++ [(k, v)]

/-- In-place update of the binding for `k`, modelling mutation through
`HashMap::get_mut`. -/
def updateRT {α : Type} (l : List (Int × α)) (k : Int) (v : α) : List (Int × α) :=
  l.map (fun p => if p.1 == k then (k, v) else p)

/-- Embeds `KEYCODE_DESCRIPTORS` (src/input.rs lines 155-161): for each keycode of
`KEYCODE_ARRAY`, its Android code is bound to its descriptor. -/
def KEYCODE_DESCRIPTORS : List (Int × KeyDescriptor) :=
  KEYCODE_ARRAY.foldl
    (fun it keycode => insertRT it (keycodeToInt keycode) (keycode_as_descriptor keycode))
    []

/-- Embeds `KeyState` (src/input.rs lines 141-144). -/
structure KeyState where
  action : KeyAction
  descriptor : KeyDescriptor
deriving DecidableEq, Repr

/-- Embeds `KeyState::new` (src/input.rs lines 146-153): the initial stored action
is `Up`. -/
def KeyState.new (descriptor : KeyDescriptor) : KeyState :=
  { action := KeyAction.Up, descriptor := descriptor }

/-- Embeds `InputDispatcher::get_descriptor` (src/input.rs lines 319-322). -/
def get_descriptor (keycode : Keycode) : Option KeyDescriptor :=
  lookupD KEYCODE_DESCRIPTORS (keycodeToInt keycode)

/-- Default descriptor used to model the `.unwrap()` calls of
`build_route_table`; every one of those lookups succeeds, so the default is
never produced. -/
instance : Inhabited KeyDescriptor :=
  ⟨⟨PhysicalKey.Unknown, LogicalKey.Unknown, KeyLocation.Standard⟩⟩

/-- A route-table entry insert: `it.insert(key.into(), KeyState::new(desc))`
with `desc = get_descriptor(target).unwrap()`. -/
def routeInsert (it : List (Int × KeyState)) (key target : Keycode) : List (Int × KeyState) :=
  insertRT it (keycodeToInt key) (KeyState.new (get_descriptor target).get!)

/-- Embeds `InputDispatcher::build_route_table` (src/input.rs lines 172-317), as the
sequence of inserts the source performs for the given port. -/
def build_route_table (port : Int) : List (Int × KeyState) :=
  if port = 1 then
    routeInsert (routeInsert (routeInsert (routeInsert (routeInsert (routeInsert
      (routeInsert (routeInsert (routeInsert (routeInsert (routeInsert (routeInsert
        (routeInsert (routeInsert []
          Keycode.DpadLeft Keycode.A)
          Keycode.DpadRight Keycode.D)
          Keycode.DpadUp Keycode.W)
          Keycode.DpadDown Keycode.S)
          Keycode.ButtonA Keycode.G)
          Keycode.ButtonB Keycode.H)
          Keycode.ButtonX Keycode.T)
          Keycode.ButtonY Keycode.Y)
          Keycode.ButtonSelect Keycode.Tab)
          Keycode.ButtonStart Keycode.Enter)
          Keycode.ButtonL1 Keycode.Keycode7)
          Keycode.ButtonR1 Keycode.Keycode8)
          Keycode.ButtonL1 Keycode.Keycode9)
          Keycode.ButtonR1 Keycode.Keycode0
  else
    routeInsert (routeInsert (routeInsert (routeInsert (routeInsert (routeInsert
      (routeInsert (routeInsert (routeInsert (routeInsert (routeInsert (routeInsert
        (routeInsert (routeInsert []
          Keycode.DpadLeft Keycode.DpadLeft)
          Keycode.DpadRight Keycode.DpadRight)
          Keycode.DpadUp Keycode.DpadUp)
          Keycode.DpadDown Keycode.DpadDown)
          Keycode.ButtonA Keycode.Comma)
          Keycode.ButtonB Keycode.Period)
          Keycode.ButtonX Keycode.K)
          Keycode.ButtonY Keycode.L)
          Keycode.ButtonSelect Keycode.Tab)
          Keycode.ButtonStart Keycode.Enter)
          Keycode.ButtonL1 Keycode.Keycode1)
          Keycode.ButtonR1 Keycode.Keycode2)
          Keycode.ButtonL1 Keycode.Keycode3)
          Keycode.ButtonR1 Keycode.Keycode4

/-- Embeds `MouseButton` (only `Left` is used by the dispatcher). -/
inductive MouseButton where
  | Left
deriving DecidableEq, Repr

/-- The `ruffle_core::PlayerEvent` values the dispatcher emits via
`player.handle_event`. -/
inductive PlayerEvent where
  | KeyDown (key : KeyDescriptor)
  | KeyUp (key : KeyDescriptor)
  | MouseDown (x y : Rat) (button : MouseButton) (index : Option Nat)
  | MouseUp (x y : Rat) (button : MouseButton)
  | MouseMove (x y : Rat)
deriving DecidableEq, Repr

/-- Embeds `KeyEvent` (src/input.rs lines 89-95). -/
structure KeyEvent where
  port : Int
  key : Keycode
  action : KeyAction
  source : InputSource
deriving DecidableEq, Repr

/-- Embeds `KeyEvent::new` (src/input.rs lines 109-116): a keyboard-sourced event
with port 0. -/
def KeyEvent.new (key : Keycode) (action : KeyAction) : KeyEvent :=
  { port := 0, key := key, action := action, source := InputSource.Keyboard }

/-- Embeds `KeyEvent::gamepad` (src/input.rs lines 118-125). -/
def KeyEvent.gamepad (port : Int) (key : Keycode) (action : KeyAction) : KeyEvent :=
  { port := port, key := key, action := action, source := InputSource.Gamepad }

/-- Embeds `TouchEvent` (src/input.rs lines 128-133), f64 coordinates modelled as
rationals. -/
structure TouchEvent where
  x : Rat
  y : Rat
  action : KeyAction
deriving DecidableEq, Repr

/-- The dispatcher's mutable state: the two lazily built route tables
(`P0_ROUTE_TABLE`, `P1_ROUTE_TABLE`) and the pressed flag `POINTER_ACTION`
(src/input.rs lines 164-168). -/
structure DispatcherState where
  p0 : List (Int × KeyState)
  p1 : List (Int × KeyState)
  pointer : Bool
deriving DecidableEq, Repr

/-- The dispatcher state at worker startup: both route tables freshly built,
`POINTER_ACTION` initialised to `false`. -/
def initDispatcherState : DispatcherState :=
  { p0 := build_route_table 0, p1 := build_route_table 1, pointer := false }

/-- The route-table half of `dispatch_key_event`'s gamepad branch
(src/input.rs lines 358-371): look the code up, and when the stored action
differs from the event's action emit one down/up event and store the new
action; otherwise emit nothing and leave the entry alone. -/
def dispatchOnTable (code : Int) (action : KeyAction) (table : List (Int × KeyState)) :
    List (Int × KeyState) × List PlayerEvent :=
  match lookupD table code with
  | some key_state =>
    if key_state.action = action then
      (table, [])
    else
      (updateRT table code { key_state with action := action },
       [if action = KeyAction.Down then PlayerEvent.KeyDown key_state.descriptor
        else PlayerEvent.KeyUp key_state.descriptor])
  | none => (table, [])

/-- Embeds `InputDispatcher::dispatch_key_event` (src/input.rs lines 351-379),
returning the new dispatcher state and the list of events handed to the
player. -/
def dispatch_key_event (event : KeyEvent) (s : DispatcherState) :
    DispatcherState × List PlayerEvent :=
  match event.source with
  | InputSource.Gamepad =>
    if event.port = 1 then
      let r := dispatchOnTable (keycodeToInt event.key) event.action s.p1
      ({ s with p1 := r.1 }, r.2)
    else
      let r := dispatchOnTable (keycodeToInt event.key) event.action s.p0
      ({ s with p0 := r.1 }, r.2)
  | InputSource.Keyboard =>
    match lookupD KEYCODE_DESCRIPTORS (keycodeToInt event.key) with
    | some descriptor =>
      (s, [if event.action = KeyAction.Down then PlayerEvent.KeyDown descriptor
           else PlayerEvent.KeyUp descriptor])
    | none => (s, [])

/-- Embeds `InputDispatcher::dispatch_touch_event` (src/input.rs lines 324-349).
`current_action` is `KeyAction::from(POINTER_ACTION.load(..))`, i.e. `Down`
when the stored flag is `true`. -/
def dispatch_touch_event (event : TouchEvent) (s : DispatcherState) :
    DispatcherState × List PlayerEvent :=
  let current_action := KeyAction.fromBool s.pointer
  if current_action ≠ event.action then
    if event.action = KeyAction.Down then
      ({ s with pointer := true },
       [PlayerEvent.MouseDown event.x event.y MouseButton.Left none])
    else
      ({ s with pointer := false },
       [PlayerEvent.MouseUp event.x event.y MouseButton.Left])
  else if event.action = KeyAction.Down then
    (s, [PlayerEvent.MouseMove event.x event.y])
  else
    (s, [])

/-- Embeds `RuffleEvent` (src/lib.rs lines 42-48).  The attach event's native
window is represented by its width and height (the only data the loop reads
from it); the adjust event carries the viewport size already cast to u32. -/
inductive RuffleEvent where
  | AttachSurface (w h : Nat)
  | AdjustSurfaceSize (vw vh : Nat)
  | DetachSurface
  | HandleKeyEvent (event : KeyEvent)
  | Kill
deriving DecidableEq, Repr

/-- The worker thread's per-iteration state (src/lib.rs `em_start`): whether
`player_ref` is populated, whether the player is playing, the viewport
dimensions, and the input dispatcher's state. -/
structure WorkerState where
  hasPlayer : Bool
  playing : Bool
  viewport : Nat × Nat
  disp : DispatcherState
deriving DecidableEq, Repr

/-- The effect of one non-kill lifecycle event on the worker state
(src/lib.rs lines 117-209). -/
def handleEvent : RuffleEvent → WorkerState → WorkerState
  | RuffleEvent.AttachSurface w h, s =>
    if s.hasPlayer then { s with playing := true }
    else { s with hasPlayer := true, playing := true, viewport := (w, h) }
  | RuffleEvent.AdjustSurfaceSize vw vh, s =>
    if s.hasPlayer then { s with viewport := (vw, vh) } else s
  | RuffleEvent.DetachSurface, s =>
    if s.hasPlayer then { s with playing := false } else s
  | RuffleEvent.HandleKeyEvent event, s =>
    if s.hasPlayer then { s with disp := (dispatch_key_event event s.disp).1 } else s
  | RuffleEvent.Kill, s => s

/-- The result of one worker-loop iteration: the state and remaining queue,
whether the loop exits (`break`), and whether control reached the
tick/render/poll phase after the event match. -/
structure IterResult where
  state : WorkerState
  queue : List RuffleEvent
  exit : Bool
  reachedTick : Bool
deriving DecidableEq, Repr

/-- One iteration of the worker loop (src/lib.rs lines 115-328): a
non-blocking `try_recv` takes at most the head of the queue; `Kill` breaks
out of the loop; every other event (and the empty-queue `Err`) falls through
to the tick/render/poll phase. -/
def loopIter (queue : List RuffleEvent) (s : WorkerState) : IterResult :=
  match queue with
  | [] => ⟨s, [], false, true⟩
  | event :: rest =>
    match event with
    | RuffleEvent.Kill => ⟨s, rest, true, false⟩
    | e => ⟨handleEvent e s, rest, false, true⟩

/-- The per-button action extraction of the frame poll (src/lib.rs lines
248-272): `KeyAction::from(status >> bit & 0x1)`.  `status` is the 32-bit
pattern of the polled jint. -/
def pollButtonAction (status : Nat) (bit : Nat) : KeyAction :=
  KeyAction.fromInt (Int.ofNat ((status >>> bit) &&& 1))

/-- The (button, mask-bit) pairs of the per-frame joypad poll, in the order
src/lib.rs lines 248-272 dispatches them; the bits are the
`RETRO_DEVICE_ID_JOYPAD_*` constants. -/
def JOYPAD_BINDINGS : List (Keycode × Nat) :=
  [(Keycode.ButtonA, 8), (Keycode.ButtonB, 0), (Keycode.ButtonX, 9), (Keycode.ButtonY, 1),
   (Keycode.DpadLeft, 6), (Keycode.DpadRight, 7), (Keycode.DpadUp, 4), (Keycode.DpadDown, 5),
   (Keycode.ButtonSelect, 2), (Keycode.ButtonStart, 3),
   (Keycode.ButtonL1, 10), (Keycode.ButtonR1, 11)]

/-- The twelve gamepad dispatches one port's poll performs, given the
polled joypad bitmask (src/lib.rs lines 248-272). -/
def pollJoypad (port : Int) (status : Nat) (s : DispatcherState) :
    DispatcherState × List PlayerEvent :=
  JOYPAD_BINDINGS.foldl
    (fun acc kb =>
      let r := dispatch_key_event (KeyEvent.gamepad port kb.1 (pollButtonAction status kb.2)) acc.1
      (r.1, acc.2 ++ r.2))
    (s, [])

/-- Embeds `for port in 0..1` (src/lib.rs line 231): the ports the frame poll
iterates over. -/
def pollRange : List Nat := List.range 1

/-- The pointer-coordinate rescale of the frame poll (src/lib.rs lines
320-322): `(raw + 32767.0) * dim / 65534.0`, f64 modelled as rationals. -/
def rescale (raw : Int) (dim : Nat) : Rat :=
  ((raw : Rat) + 32767) * (dim : Rat) / 65534

/-- The whole per-frame input poll (src/lib.rs lines 231-327): the joypad
poll for each port of `pollRange`, then one pointer dispatch fed by the
rescaled pointer axes and the pressed flag. -/
def framePoll (s : DispatcherState) (statusOf : Nat → Nat) (pressed : Bool)
    (px py : Int) (w h : Nat) : DispatcherState × List PlayerEvent :=
  let r := pollRange.foldl
    (fun acc port =>
      let r2 := pollJoypad (Int.ofNat port) (statusOf port) acc.1
      (r2.1, acc.2 ++ r2.2))
    (s, [])
  let x := rescale px w
  let y := rescale py h
  let r3 := dispatch_touch_event ⟨x, y, KeyAction.fromBool pressed⟩ r.1
  (r3.1, r.2 ++ r3.2)

/-- Whether `dispatch_key_event` finds a binding for the event's device
code: in the route table selected by port for gamepad-sourced events, in
`KEYCODE_DESCRIPTORS` for keyboard-sourced events. -/
def eventMapped (s : DispatcherState) (event : KeyEvent) : Bool :=
  match event.source with
  | InputSource.Gamepad =>
    (lookupD (if event.port = 1 then s.p1 else s.p0) (keycodeToInt event.key)).isSome
  | InputSource.Keyboard =>
    (lookupD KEYCODE_DESCRIPTORS (keycodeToInt event.key)).isSome

/-- Two back-to-back calls of `dispatch_key_event` with the same event:
final state and the concatenation of both emissions. -/
def dispatchTwice (event : KeyEvent) (s : DispatcherState) :
    DispatcherState × List PlayerEvent :=
  let r1 := dispatch_key_event event s
  let r2 := dispatch_key_event event r1.1
  (r2.1, r1.2 ++ r2.2)

set_option maxRecDepth 40000

theorem lookupD_cons {α : Type} (p : Int × α) (rest : List (Int × α)) (k : Int) :
    lookupD (p :: rest) k = if p.1 = k then some p.2 else lookupD rest k := by
  by_cases hk : p.1 = k
  · rw [if_pos hk]
    unfold lookupD
    rw [List.find?_cons_of_pos _ (by simpa using hk)]
    rfl
  · rw [if_neg hk]
    unfold lookupD
    rw [List.find?_cons_of_neg _ (by simpa using hk)]

theorem lookupD_updateRT_self {α : Type} {l : List (Int × α)} {k : Int} {w : α}
    (v : α) (h : lookupD l k = some w) :
    lookupD (updateRT l k v) k = some v := by
  induction l with
  | nil => simp [lookupD] at h
  | cons p rest ih =>
    rw [lookupD_cons] at h
    have hu : updateRT (p :: rest) k v
        = (if p.1 == k then (k, v) else p) :: updateRT rest k v := rfl
    rw [hu]
    by_cases hk : p.1 = k
    · rw [if_pos (by simpa using hk), lookupD_cons]
      simp
    · rw [if_neg (by simpa using hk), lookupD_cons, if_neg hk]
      rw [if_neg hk] at h
      exact ih h

theorem lookupD_eq_none_of_not_mem_keys {α : Type} {l : List (Int × α)} {k : Int}
    (h : k ∉ l.map Prod.fst) : lookupD l k = none := by
  have hf : l.find? (fun p => p.1 == k) = none := by
    rw [List.find?_eq_none]
    intro p hp
    simp only [beq_iff_eq]
    intro heq
    exact h (List.mem_map.mpr ⟨p, hp, heq⟩)
  simp [lookupD, hf]

theorem dispatchOnTable_found {table : List (Int × KeyState)} {code : Int}
    {ks : KeyState} (a : KeyAction) (h : lookupD table code = some ks) :
    (dispatchOnTable code a table).2.length = (if ks.action = a then 0 else 1)
  ∧ lookupD (dispatchOnTable code a table).1 code = some { ks with action := a } := by
  unfold dispatchOnTable
  rw [h]
  by_cases hea : ks.action = a
  · obtain ⟨ka, kd⟩ := ks
    simp only at hea
    subst hea
    simp [h]
  · simp only [hea, if_false, if_neg hea]
    exact ⟨rfl, lookupD_updateRT_self _ h⟩

theorem dispatchOnTable_twice {table : List (Int × KeyState)} {code : Int}
    {ks : KeyState} (a : KeyAction) (h : lookupD table code = some ks) :
    ((dispatchOnTable code a table).2
      ++ (dispatchOnTable code a (dispatchOnTable code a table).1).2).length
      = (if ks.action = a then 0 else 1)
  ∧ lookupD (dispatchOnTable code a (dispatchOnTable code a table).1).1 code
      = some { ks with action := a } := by
  obtain ⟨h1len, h1look⟩ := dispatchOnTable_found a h
  obtain ⟨h2len, h2look⟩ := dispatchOnTable_found a h1look
  have h2len0 : (dispatchOnTable code a (dispatchOnTable code a table).1).2.length = 0 := by
    simpa using h2len
  constructor
  · rw [List.length_append, h1len, h2len0, Nat.add_zero]
  · simpa using h2look

theorem dispatch_gamepad_port0_p1 (key : Keycode) (a : KeyAction) (s : DispatcherState) :
    (dispatch_key_event (KeyEvent.gamepad 0 key a) s).1.p1 = s.p1 := by
  simp [dispatch_key_event, KeyEvent.gamepad]

theorem isSome_false {α : Type} {o : Option α} (h : o.isSome = false) : o = none := by
  cases o with
  | none => rfl
  | some d => simp at h

theorem dispatch_touch_p1 (event : TouchEvent) (s : DispatcherState) :
    (dispatch_touch_event event s).1.p1 = s.p1 := by
  obtain ⟨x, y, a⟩ := event
  obtain ⟨p0, p1, ptr⟩ := s
  cases a <;> cases ptr <;> rfl

/-- C3.  Pointer/touch dispatch obeys the transition law on the single
global pressed flag: a `Down` dispatch emits one mouse-move if the flag was
already set and one mouse-down otherwise, leaving the flag set; an `Up`
dispatch emits one mouse-up if the flag was set and nothing otherwise,
leaving the flag clear. -/
theorem C3_pointer_transition_law (s : DispatcherState) (x y : Rat) :
    dispatch_touch_event ⟨x, y, KeyAction.Down⟩ s
      = ({ s with pointer := true },
         if s.pointer then [PlayerEvent.MouseMove x y]
         else [PlayerEvent.MouseDown x y MouseButton.Left none])
  ∧ dispatch_touch_event ⟨x, y, KeyAction.Up⟩ s
      = ({ s with pointer := false },
         if s.pointer then [PlayerEvent.MouseUp x y MouseButton.Left] else []) := by
  obtain ⟨p0, p1, ptr⟩ := s
  cases ptr <;> exact ⟨rfl, rfl⟩

/-- C4.  For every device code absent from the table selected by the
event's source (the per-port route table for gamepad events, the keycode
descriptor table for keyboard events), `dispatch_key_event` emits nothing
and leaves the whole dispatcher state unchanged. -/
theorem C4_unmapped_silent_noop (s : DispatcherState) (event : KeyEvent)
    (h : eventMapped s event = false) :
    dispatch_key_event event s = (s, []) := by
  obtain ⟨port, key, a, src⟩ := event
  cases src
  · -- keyboard
    unfold eventMapped at h
    simp only at h
    have h2 := isSome_false h
    unfold dispatch_key_event
    simp only
    rw [h2]
  · -- gamepad
    unfold eventMapped at h
    simp only at h
    have h2 := isSome_false h
    by_cases hp : port = 1
    · rw [if_pos hp] at h2
      simp [dispatch_key_event, dispatchOnTable, h2, hp]
    · rw [if_neg hp] at h2
      simp [dispatch_key_event, dispatchOnTable, h2, hp]

/-- Witness for C4 at a concrete unmapped input: keycode `ButtonA` (Android
code 96) is absent from the keycode descriptor table. -/
theorem C4_unmapped_silent_noop_witness :
    eventMapped initDispatcherState (KeyEvent.new Keycode.ButtonA KeyAction.Down) = false
  ∧ dispatch_key_event (KeyEvent.new Keycode.ButtonA KeyAction.Down) initDispatcherState
      = (initDispatcherState, []) := by
  refine ⟨by decide, C4_unmapped_silent_noop _ _ (by decide)⟩

/-- C1 counterexample: `DpadLeft` is present in port 0's route table, whose
stored action starts as `Up`; dispatching `Up` twice from the startup state
emits zero events, not the one event the claim asserts. -/
theorem C1_counterexample :
    (lookupD initDispatcherState.p0 (keycodeToInt Keycode.DpadLeft)).isSome = true
  ∧ ¬ ((dispatchTwice (KeyEvent.gamepad 0 Keycode.DpadLeft KeyAction.Up)
        initDispatcherState).2.length = 1) := by
  constructor
  · decide
  · decide

/-- C1 as amended: for a device code present in the selected gamepad route
table, two back-to-back dispatches of the same action emit exactly one event
when the stored action differed from the dispatched action and zero when it
already matched; afterwards the stored action equals the dispatched
action. -/
theorem C1_edge_trigger (s : DispatcherState) (port : Int) (key : Keycode)
    (a : KeyAction) (ks : KeyState)
    (h : lookupD (if port = 1 then s.p1 else s.p0) (keycodeToInt key) = some ks) :
    (dispatchTwice (KeyEvent.gamepad port key a) s).2.length
      = (if ks.action = a then 0 else 1)
  ∧ lookupD (if port = 1 then (dispatchTwice (KeyEvent.gamepad port key a) s).1.p1
             else (dispatchTwice (KeyEvent.gamepad port key a) s).1.p0)
      (keycodeToInt key) = some { ks with action := a } := by
  obtain ⟨hlen, hlook⟩ := dispatchOnTable_twice a h
  by_cases hp : port = 1
  · rw [if_pos hp] at h hlen hlook
    constructor
    · rw [← hlen]
      simp [dispatchTwice, dispatch_key_event, KeyEvent.gamepad, hp]
    · rw [if_pos hp]
      rw [← hlook]
      simp [dispatchTwice, dispatch_key_event, KeyEvent.gamepad, hp]
  · rw [if_neg hp] at h hlen hlook
    constructor
    · rw [← hlen]
      simp [dispatchTwice, dispatch_key_event, KeyEvent.gamepad, hp]
    · rw [if_neg hp]
      rw [← hlook]
      simp [dispatchTwice, dispatch_key_event, KeyEvent.gamepad, hp]

/-- Witness for C1 at a concrete input: port 0, `DpadLeft`, dispatching
`Down` twice from the startup state (stored action `Up`) emits exactly one
event. -/
theorem C1_edge_trigger_witness :
    (dispatchTwice (KeyEvent.gamepad 0 Keycode.DpadLeft KeyAction.Down)
      initDispatcherState).2.length = 1 := by
  have h := C1_edge_trigger initDispatcherState 0 Keycode.DpadLeft KeyAction.Down
    (KeyState.new (keycode_as_descriptor Keycode.DpadLeft)) (by decide)
  simpa [KeyState.new] using h.1

/-- C2 counterexample: dispatching the same keyboard event (`A`, `Down`)
twice from the startup state emits two events, not the single
edge-suppressed event the claim asserts for keyboard-source events. -/
theorem C2_counterexample :
    ¬ ((dispatchTwice (KeyEvent.new Keycode.A KeyAction.Down)
        initDispatcherState).2.length = 1) := by
  decide

/-- C2 as amended: `dispatch_key_event` applies edge-triggered suppression
only to gamepad-source events; a keyboard-source event is looked up in
`KEYCODE_DESCRIPTORS` and, when found, always emits one down/up event,
regardless of the dispatcher state, which it never modifies. -/
theorem C2_dispatch_by_source (s : DispatcherState) (key : Keycode) (a : KeyAction) :
    (dispatch_key_event (KeyEvent.new key a) s
      = (s, match lookupD KEYCODE_DESCRIPTORS (keycodeToInt key) with
            | some d => [if a = KeyAction.Down then PlayerEvent.KeyDown d
                         else PlayerEvent.KeyUp d]
            | none => []))
  ∧ (∀ (port : Int) (ks : KeyState),
      lookupD (if port = 1 then s.p1 else s.p0) (keycodeToInt key) = some ks →
      ks.action = a →
      dispatch_key_event (KeyEvent.gamepad port key a) s = (s, [])) := by
  constructor
  · unfold dispatch_key_event KeyEvent.new
    simp only
    cases lookupD KEYCODE_DESCRIPTORS (keycodeToInt key) <;> rfl
  · intro port ks hlook hact
    by_cases hp : port = 1
    · rw [if_pos hp] at hlook
      simp [dispatch_key_event, KeyEvent.gamepad, hp, dispatchOnTable, hlook, hact]
    · rw [if_neg hp] at hlook
      simp [dispatch_key_event, KeyEvent.gamepad, hp, dispatchOnTable, hlook, hact]

/-- Witness for C2 at concrete inputs: keyboard `A`/`Up` always emits its
key-up, and a gamepad dispatch whose stored action already matches
(`DpadLeft`, `Up`, startup state) emits nothing. -/
theorem C2_dispatch_by_source_witness :
    dispatch_key_event (KeyEvent.new Keycode.A KeyAction.Up) initDispatcherState
      = (initDispatcherState, [PlayerEvent.KeyUp (keycode_as_descriptor Keycode.A)])
  ∧ dispatch_key_event (KeyEvent.gamepad 0 Keycode.DpadLeft KeyAction.Up)
      initDispatcherState = (initDispatcherState, []) := by
  constructor
  · rw [(C2_dispatch_by_source initDispatcherState Keycode.A KeyAction.Up).1]
    decide
  · exact (C2_dispatch_by_source initDispatcherState Keycode.DpadLeft KeyAction.Up).2
      0 (KeyState.new (keycode_as_descriptor Keycode.DpadLeft)) (by decide) (by decide)

/-- C5.  The pointer rescale `(raw + 32767) * dim / 65534` is affine with
positive slope, strictly monotonic in the raw value for every positive
viewport dimension, and maps the endpoints of the pointer input range
[-32767, 32767] to 0 and the dimension respectively. -/
theorem C5_rescale_affine_monotone (w : Nat) (hw : 0 < w) :
    (∀ raw : Int, rescale raw w = ((w : Rat) / 65534) * (raw : Rat)
        + 32767 * (w : Rat) / 65534)
  ∧ (∀ r1 r2 : Int, r1 < r2 → rescale r1 w < rescale r2 w)
  ∧ rescale (-32767) w = 0
  ∧ rescale 32767 w = (w : Rat) := by
  refine ⟨?_, ?_, ?_, ?_⟩
  · intro raw
    unfold rescale
    ring
  · intro r1 r2 h12
    unfold rescale
    have h65 : (0 : Rat) < 65534 := by norm_num
    rw [div_lt_div_iff_of_pos_right h65]
    have hwq : (0 : Rat) < (w : Rat) := by exact_mod_cast hw
    have hlt : ((r1 : Rat) + 32767) < ((r2 : Rat) + 32767) := by
      have : (r1 : Rat) < (r2 : Rat) := by exact_mod_cast h12
      linarith
    exact mul_lt_mul_of_pos_right hlt hwq
  · unfold rescale
    norm_num
  · unfold rescale
    have h65 : (65534 : Rat) ≠ 0 := by norm_num
    field_simp
    ring

/-- Witness for C5 at width 2: the affine form at raw 5, monotonicity
between raws 0 and 1, and both endpoint values. -/
theorem C5_rescale_witness :
    (0 : Nat) < 2
  ∧ rescale 5 2 = ((2 : Rat) / 65534) * (5 : Rat) + 32767 * (2 : Rat) / 65534
  ∧ rescale 0 2 < rescale 1 2
  ∧ rescale (-32767) 2 = 0
  ∧ rescale 32767 2 = (2 : Rat) := by
  have h := C5_rescale_affine_monotone 2 (by norm_num)
  exact ⟨by norm_num, h.1 5, h.2.1 0 1 (by norm_num), h.2.2.1, h.2.2.2⟩

/-- C6.  In both route tables the L2 and R2 entries are inserted under
`ButtonL1`'s and `ButtonR1`'s device codes, so the final binding at
`ButtonL1`'s code is the L2 descriptor (digit 9 for port 1, digit 3 for
port 0) and at `ButtonR1`'s code the R2 descriptor (digit 0 for port 1,
digit 4 for port 0); the L1/R1 descriptors (digits 7/8 and 1/2) survive
nowhere in the tables. -/
theorem C6_route_table_overwrite :
    lookupD (build_route_table 1) (keycodeToInt Keycode.ButtonL1)
      = some (KeyState.new (keycode_as_descriptor Keycode.Keycode9))
  ∧ lookupD (build_route_table 1) (keycodeToInt Keycode.ButtonR1)
      = some (KeyState.new (keycode_as_descriptor Keycode.Keycode0))
  ∧ lookupD (build_route_table 0) (keycodeToInt Keycode.ButtonL1)
      = some (KeyState.new (keycode_as_descriptor Keycode.Keycode3))
  ∧ lookupD (build_route_table 0) (keycodeToInt Keycode.ButtonR1)
      = some (KeyState.new (keycode_as_descriptor Keycode.Keycode4))
  ∧ keycode_as_descriptor Keycode.Keycode9
      = ⟨PhysicalKey.Digit9, LogicalKey.Character '9', KeyLocation.Standard⟩
  ∧ keycode_as_descriptor Keycode.Keycode0
      = ⟨PhysicalKey.Digit0, LogicalKey.Character '0', KeyLocation.Standard⟩
  ∧ keycode_as_descriptor Keycode.Keycode3
      = ⟨PhysicalKey.Digit3, LogicalKey.Character '3', KeyLocation.Standard⟩
  ∧ keycode_as_descriptor Keycode.Keycode4
      = ⟨PhysicalKey.Digit4, LogicalKey.Character '4', KeyLocation.Standard⟩
  ∧ ((build_route_table 1).all (fun p =>
        p.2.descriptor != keycode_as_descriptor Keycode.Keycode7
        && p.2.descriptor != keycode_as_descriptor Keycode.Keycode8)) = true
  ∧ ((build_route_table 0).all (fun p =>
        p.2.descriptor != keycode_as_descriptor Keycode.Keycode1
        && p.2.descriptor != keycode_as_descriptor Keycode.Keycode2)) = true := by
  decide

/-- C7.  Every key code of the enumerated 108-element supported set resolves
in `KEYCODE_DESCRIPTORS` to a descriptor whose logical key is not the
`Unknown` placeholder, and every code outside the set resolves to `none`. -/
theorem C7_descriptor_round_trip :
    (∀ kc ∈ KEYCODE_ARRAY, ∃ d,
        lookupD KEYCODE_DESCRIPTORS (keycodeToInt kc) = some d
        ∧ d.logical_key ≠ LogicalKey.Unknown)
  ∧ (∀ code : Int, code ∉ KEYCODE_ARRAY.map keycodeToInt →
        lookupD KEYCODE_DESCRIPTORS code = none) := by
  constructor
  · have hall : KEYCODE_ARRAY.all (fun kc =>
        match lookupD KEYCODE_DESCRIPTORS (keycodeToInt kc) with
        | some d => d.logical_key != LogicalKey.Unknown
        | none => false) = true := by decide
    intro kc hkc
    have hc := List.all_eq_true.mp hall kc hkc
    cases hl : lookupD KEYCODE_DESCRIPTORS (keycodeToInt kc) with
    | none => rw [hl] at hc; simp at hc
    | some d =>
      rw [hl] at hc
      simp only [bne_iff_ne, ne_eq, decide_eq_true_eq] at hc
      exact ⟨d, rfl, by simpa using hc⟩
  · have hkeys : KEYCODE_DESCRIPTORS.map Prod.fst = KEYCODE_ARRAY.map keycodeToInt := by
      decide
    intro code hcode
    apply lookupD_eq_none_of_not_mem_keys
    rw [hkeys]
    exact hcode

/-- Witness for C7 at concrete inputs: code 29 (`A`) resolves to a
non-placeholder descriptor and code 1000 (outside the set) to `none`. -/
theorem C7_descriptor_round_trip_witness :
    (∃ d, lookupD KEYCODE_DESCRIPTORS (keycodeToInt Keycode.A) = some d
        ∧ d.logical_key ≠ LogicalKey.Unknown)
  ∧ lookupD KEYCODE_DESCRIPTORS 1000 = none := by
  exact ⟨C7_descriptor_round_trip.1 Keycode.A (by decide),
         C7_descriptor_round_trip.2 1000 (by decide)⟩

/-- C8.  Each worker-loop iteration consumes at most the head of the event
queue (a non-blocking try-receive, so an empty queue still completes the
iteration), exits exactly when the consumed event is `Kill`, and otherwise
reaches the tick/render/poll phase and iterates again. -/
theorem C8_worker_iteration (queue : List RuffleEvent) (s : WorkerState) :
    (loopIter queue s).exit = (queue.head? == some RuffleEvent.Kill)
  ∧ (loopIter queue s).queue = queue.tail
  ∧ queue.length ≤ (loopIter queue s).queue.length + 1
  ∧ (loopIter queue s).reachedTick = !(loopIter queue s).exit := by
  cases queue with
  | nil => exact ⟨rfl, rfl, by simp [loopIter], rfl⟩
  | cons e rest => cases e <;> exact ⟨by simp [loopIter], rfl, by simp [loopIter], rfl⟩

/-- C9.  `KeyAction::from(i32)` yields `Down` exactly on 0; hence the
per-frame joypad poll's `status >> bit & 1` conversion maps a set mask bit
(button held) to `Up` and a clear bit (button released) to `Down`. -/
theorem C9_action_from_mask :
    (∀ action : Int, KeyAction.fromInt action = KeyAction.Down ↔ action = 0)
  ∧ (∀ status bit : Nat,
      pollButtonAction status bit
        = (if status.testBit bit then KeyAction.Up else KeyAction.Down)) := by
  constructor
  · intro action
    unfold KeyAction.fromInt
    by_cases h : action = 0
    · simp [h]
    · simp [h]
  · intro status bit
    unfold pollButtonAction
    rw [Nat.and_one_is_mod]
    rcases Nat.mod_two_eq_zero_or_one (status >>> bit) with h | h
    · have ht : status.testBit bit = false := by
        rw [Nat.testBit_to_div_mod]
        rw [Nat.shiftRight_eq_div_pow] at h
        simp [h]
      rw [h, ht]
      rfl
    · have ht : status.testBit bit = true := by
        rw [Nat.testBit_to_div_mod]
        rw [Nat.shiftRight_eq_div_pow] at h
        simp [h]
      rw [h, ht]
      rfl

theorem pollFold_p1 (l : List (Keycode × Nat)) (status : Nat)
    (acc : DispatcherState × List PlayerEvent) :
    (l.foldl (fun acc kb =>
      let r := dispatch_key_event (KeyEvent.gamepad 0 kb.1 (pollButtonAction status kb.2)) acc.1
      (r.1, acc.2 ++ r.2)) acc).1.p1 = acc.1.p1 := by
  induction l generalizing acc with
  | nil => rfl
  | cons kb rest ih =>
    rw [List.foldl_cons, ih]
    exact dispatch_gamepad_port0_p1 kb.1 _ acc.1

theorem pollJoypad_port0_p1 (status : Nat) (s : DispatcherState) :
    (pollJoypad 0 status s).1.p1 = s.p1 :=
  pollFold_p1 JOYPAD_BINDINGS status (s, [])

/-- C10.  The per-frame input poll iterates `for port in 0..1`, i.e. over
port 0 only, so a frame's poll never touches port 1's route table, whose
stored actions all remain `Up` as initialised. -/
theorem C10_port1_untouched :
    pollRange = [0]
  ∧ (∀ (s : DispatcherState) (statusOf : Nat → Nat) (pressed : Bool) (px py : Int)
      (w h : Nat), (framePoll s statusOf pressed px py w h).1.p1 = s.p1)
  ∧ ((build_route_table 1).all (fun p => p.2.action == KeyAction.Up)) = true := by
  refine ⟨rfl, ?_, by decide⟩
  intro s statusOf pressed px py w h
  show (dispatch_touch_event ⟨rescale px w, rescale py h, KeyAction.fromBool pressed⟩
    (pollJoypad (Int.ofNat 0) (statusOf 0) s).1).1.p1 = s.p1
  rw [dispatch_touch_p1]
  exact pollJoypad_port0_p1 (statusOf 0) s

end Libruffle
